import Mathlib

/-!
# hydra-srv: the simulated actuator and its HTTP dispatcher

A shallow embedding of the `Sim` state machine (pkg/hydra/sim.go,
pkg/hydra/hydra.go) and of the request handler `handleCmd` (main/main.go).
The Go struct is a record, every method is a function from the state before
the call to the state after it (and the returned values).  The mutex is not
part of the record: each method holds it from entry to exit, so one call is
one atomic transition.

Go reads the wall clock through `time.Now()` and `time.Since`; here the clock
reading is an explicit argument `now`.  Instants and durations are integers
counting nanoseconds.
-/

set_option linter.unusedVariables false

namespace hydra

/-! ## Constants of hydra.go and sim.go -/

def STATUS_IDLE : String := "idle"
def STATUS_DRIVING : String := "driving"
def STATUS_ERROR : String := "error"

def POSITION_INBETWEEN : String := "inbetween"
def POSITION_CLOSED : String := "closed"
def POSITION_OPEN : String := "open"

def DRIVING_NONE : Int := 0
def DRIVING_OPEN_CTL : Int := 1
def DRIVING_OPEN_TO_END : Int := 2
def DRIVING_CLOSE_CTL : Int := 3
def DRIVING_CLOSE_TO_END : Int := 4

def FULLY_OPEN : Int := 100

/-- One millisecond, in nanoseconds (`time.Millisecond`). -/
def Millisecond : Int := 1000000

/-- Largest `time.Duration` (an int64 count of nanoseconds). -/
def maxDuration : Int := 9223372036854775807

/-- Smallest `time.Duration`. -/
def minDuration : Int := -9223372036854775808

/-- The duration `time.Since(t)` read at instant `now`: the difference of the
two instants, saturated to the range of `time.Duration`. -/
def Since (now t : Int) : Int :=
  if now - t > maxDuration then maxDuration
  else if now - t < minDuration then minDuration
  else now - t

/-- Two's-complement wrap-around of Go's 64-bit `int`. -/
def wrapInt (x : Int) : Int :=
  (x + 9223372036854775808) % 18446744073709551616 - 9223372036854775808

/-! ## Data model -/

/-- The snapshot `HydraStatus` of hydra.go. -/
structure HydraStatus where
  Status : String
  Error : String
  Position : String
  deriving DecidableEq, Repr

/-- The fields of `Sim` (sim.go), the lock left out. -/
structure Sim where
  pos : Int
  simError : String
  drivingMode : Int
  lastDrivingCmd : Int
  deriving DecidableEq, Repr

namespace Sim

/-- The zero value `&hydra.Sim{}` the server starts from. -/
def zero : Sim :=
  { pos := 0, simError := "", drivingMode := 0, lastDrivingCmd := 0 }

/-- One tick: `func (s *Sim) doDriving()`, the clock read as `now`. -/
def doDriving (s : Sim) (now : Int) : Sim :=
  if (s.drivingMode = DRIVING_OPEN_CTL ∨ s.drivingMode = DRIVING_CLOSE_CTL)
      ∧ Since now s.lastDrivingCmd > 1500 * Millisecond then
    { s with drivingMode := DRIVING_NONE }
  else if s.drivingMode = DRIVING_OPEN_CTL ∨ s.drivingMode = DRIVING_OPEN_TO_END then
    if s.pos = FULLY_OPEN then { s with drivingMode := DRIVING_NONE }
    else { s with pos := wrapInt (s.pos + 1) }
  else if s.drivingMode = DRIVING_CLOSE_CTL ∨ s.drivingMode = DRIVING_CLOSE_TO_END then
    if s.pos = 0 then { s with drivingMode := DRIVING_NONE }
    else { s with pos := wrapInt (s.pos - 1) }
  else s

/-- The snapshot: `func (s *Sim) makeStatus() HydraStatus`. -/
def makeStatus (s : Sim) : HydraStatus :=
  let posStr :=
    if s.pos = 0 then POSITION_CLOSED
    else if s.pos = FULLY_OPEN then POSITION_OPEN
    else POSITION_INBETWEEN
  let statusStr :=
    if s.simError = "" then
      if s.drivingMode = DRIVING_NONE then STATUS_IDLE else STATUS_DRIVING
    else STATUS_ERROR
  { Status := statusStr, Position := posStr, Error := s.simError }

/-- What a command returns and leaves behind: the Go pair
`(HydraStatus, error)` (`none` is the nil error) and the state after the
call. -/
structure Reply where
  status : HydraStatus
  err : Option String
  next : Sim
  deriving DecidableEq, Repr

/-- Status query: `func (s *Sim) Status()`. -/
def Status (s : Sim) : Reply :=
  { status := s.makeStatus, err := none, next := s }

/-- Hold-to-open: `func (s *Sim) Open(clientTime)`. -/
def Open (s : Sim) (clientTime now : Int) : Reply :=
  if s.pos = FULLY_OPEN then
    { status := s.makeStatus, err := none, next := s }
  else
    let s1 := { s with lastDrivingCmd := now }
    let s2 := { s1 with drivingMode := DRIVING_OPEN_CTL }
    { status := s2.makeStatus, err := none, next := s2 }

/-- Hold-to-close: `func (s *Sim) Close(clientTime)`. -/
def Close (s : Sim) (clientTime now : Int) : Reply :=
  if s.pos = 0 then
    { status := s.makeStatus, err := none, next := s }
  else
    let s1 := { s with lastDrivingCmd := now }
    let s2 := { s1 with drivingMode := DRIVING_CLOSE_CTL }
    { status := s2.makeStatus, err := none, next := s2 }

/-- Drive to fully open: `func (s *Sim) OpenToEnd(clientTime)`. -/
def OpenToEnd (s : Sim) (clientTime now : Int) : Reply :=
  if s.pos = FULLY_OPEN then
    { status := s.makeStatus, err := none, next := s }
  else
    let s1 := { s with lastDrivingCmd := now }
    let s2 := { s1 with drivingMode := DRIVING_OPEN_TO_END }
    { status := s2.makeStatus, err := none, next := s2 }

/-- Drive to fully closed: `func (s *Sim) CloseToEnd(clientTime)`. -/
def CloseToEnd (s : Sim) (clientTime now : Int) : Reply :=
  if s.pos = 0 then
    { status := s.makeStatus, err := none, next := s }
  else
    let s1 := { s with lastDrivingCmd := now }
    let s2 := { s1 with drivingMode := DRIVING_CLOSE_TO_END }
    { status := s2.makeStatus, err := none, next := s2 }

/-- Stop: `func (s *Sim) Stop(clientTime)`. -/
def Stop (s : Sim) (clientTime now : Int) : Reply :=
  let s1 := { s with lastDrivingCmd := now }
  let s2 := { s1 with drivingMode := DRIVING_NONE }
  { status := s2.makeStatus, err := none, next := s2 }

/-- Error injection: `func (s *Sim) SimError(inErrorState bool)`. -/
def SimError (s : Sim) (inErrorState : Bool) : Sim :=
  if inErrorState then
    let s1 := { s with drivingMode := DRIVING_NONE }
    { s1 with simError := "Oh nein, ein Fehler!" }
  else
    { s with simError := "" }

end Sim

/-! ## Runs of the machine -/

/-- One event at the simulator: a call of the `Inst` interface (with the
client time it is given and the clock reading at the call) or one tick of
`drivingRoutine`. -/
inductive Event where
  | open (clientTime now : Int)
  | close (clientTime now : Int)
  | openToEnd (clientTime now : Int)
  | closeToEnd (clientTime now : Int)
  | stop (clientTime now : Int)
  | simError (inErrorState : Bool)
  | status
  | tick (now : Int)
  deriving DecidableEq, Repr

/-- The state an event leaves behind. -/
def Sim.step (s : Sim) : Event → Sim
  | .open c n => (s.Open c n).next
  | .close c n => (s.Close c n).next
  | .openToEnd c n => (s.OpenToEnd c n).next
  | .closeToEnd c n => (s.CloseToEnd c n).next
  | .stop c n => (s.Stop c n).next
  | .simError b => s.SimError b
  | .status => s.Status.next
  | .tick n => s.doDriving n

/-- The state after a finite sequence of events, first event first. -/
def Sim.run (s : Sim) (es : List Event) : Sim :=
  es.foldl Sim.step s

/-- The state after consecutive ticks read at the listed clock values, with
no command in between. -/
def Sim.ticks (s : Sim) (nows : List Int) : Sim :=
  nows.foldl Sim.doDriving s

/-! ## The dispatcher (main/main.go)

`handleCmd` reads a request, may call one method of the simulator and writes
one response.  The calls into libraries outside the repository are arguments
of the model (`Library`): decoding the JSON body, parsing the RFC3339 time
and marshalling the answer.  Logging to standard output is left out. -/

/-- The status codes of google.golang.org/grpc/codes. -/
inductive Code where
  | OK
  | Canceled
  | Unknown
  | InvalidArgument
  | DeadlineExceeded
  | NotFound
  | AlreadyExists
  | PermissionDenied
  | ResourceExhausted
  | FailedPrecondition
  | Aborted
  | OutOfRange
  | Unimplemented
  | Internal
  | Unavailable
  | DataLoss
  | Unauthenticated
  deriving DecidableEq, Repr

/-- The name `Code.String()` prints. -/
def Code.name : Code → String
  | .OK => "OK"
  | .Canceled => "Canceled"
  | .Unknown => "Unknown"
  | .InvalidArgument => "InvalidArgument"
  | .DeadlineExceeded => "DeadlineExceeded"
  | .NotFound => "NotFound"
  | .AlreadyExists => "AlreadyExists"
  | .PermissionDenied => "PermissionDenied"
  | .ResourceExhausted => "ResourceExhausted"
  | .FailedPrecondition => "FailedPrecondition"
  | .Aborted => "Aborted"
  | .OutOfRange => "OutOfRange"
  | .Unimplemented => "Unimplemented"
  | .Internal => "Internal"
  | .Unavailable => "Unavailable"
  | .DataLoss => "DataLoss"
  | .Unauthenticated => "Unauthenticated"

/-- A non-nil Go `error` as the dispatcher sees it: `code` is what
`status.Code(err)` returns (Unknown for an error that carries no gRPC status)
and `text` is what `err.Error()` returns. -/
structure GoError where
  code : Code
  text : String
  deriving DecidableEq, Repr

/-- The error `status.Errorf(c, ...)` builds, `msg` being the formatted
message; its text is the one grpc prints for a status. -/
def Errorf (c : Code) (msg : String) : GoError :=
  { code := c, text := "rpc error: code = " ++ c.name ++ " desc = " ++ msg }

/-- An error that is no gRPC status (for instance one of encoding/json). -/
def plainError (text : String) : GoError :=
  { code := Code.Unknown, text := text }

def StatusOK : Nat := 200
def StatusBadRequest : Nat := 400
def StatusUnauthorized : Nat := 401
def StatusForbidden : Nat := 403
def StatusNotFound : Nat := 404
def StatusMethodNotAllowed : Nat := 405
def StatusInternalServerError : Nat := 500
def StatusServiceUnavailable : Nat := 503

/-- What `handleCmd` reads of the `http.Request`: the method, the two path
values, the values of the Authorization header and the body. -/
structure Request where
  method : String
  env : String
  cmd : String
  auth : List String
  body : String
  deriving DecidableEq, Repr

/-- What is written to the `http.ResponseWriter`: the status code, the
Content-Length header when the handler sets one, and the body. -/
structure Response where
  code : Nat
  contentLength : Option Nat
  body : String
  deriving DecidableEq, Repr

/-- The value `resp` that is marshalled on success: a snapshot or a plain
confirmation string. -/
inductive Resp where
  | status (h : HydraStatus)
  | text (t : String)
  deriving DecidableEq, Repr

/-- The library calls of `handleCmd` and `readClientTime`.  `jsonDecode body`
stands for `json.NewDecoder(r.Body).Decode(&reqWithTime)` and gives the field
`RawTime` or the decoder's error text; `timeParse raw` stands for
`time.Parse(time.RFC3339, raw)` and gives the instant or the parse error
text; `jsonMarshal resp` stands for `json.Marshal(resp)`. -/
structure Library where
  jsonDecode : String → Except String String
  timeParse : String → Except String Int
  jsonMarshal : Resp → Except String String

/-- Byte-wise test `strings.HasPrefix(s, pre)`. -/
def HasPrefix (s pre : String) : Bool :=
  pre.data.isPrefixOf s.data

/-- The Go function `toHttpStatus(code)`. -/
def toHttpStatus : Code → Nat
  | .Internal => StatusBadRequest
  | .Unauthenticated => StatusUnauthorized
  | .PermissionDenied => StatusForbidden
  | .Unimplemented => StatusNotFound
  | .Unavailable => StatusServiceUnavailable
  | _ => StatusInternalServerError

/-- The Go function `respondError(w, err)`: the response it writes. -/
def respondError (err : GoError) : Response :=
  let httpStatus := if err.code = Code.Unknown then StatusInternalServerError
    else toHttpStatus err.code
  let httpBody := if err.code = Code.Unknown then "" else err.text
  { code := httpStatus, contentLength := some httpBody.utf8ByteSize, body := httpBody }

/-- The Go function `readClientTime(r)`. -/
def readClientTime (lib : Library) (r : Request) : Except GoError Int :=
  match lib.jsonDecode r.body with
  | .error e =>
    .error (Errorf Code.InvalidArgument ("can not parse request as JSON: " ++ e))
  | .ok rawTime =>
    match lib.timeParse rawTime with
    | .error e =>
      .error (Errorf Code.InvalidArgument
        ("can not parse request-given time '" ++ rawTime ++ "' as RFC3339: " ++ e))
    | .ok parsed => .ok parsed

/-- One run of `handleCmd`: the response written, the method of the simulator
that was called (none when the handler returned before any call) and the
state of the simulator afterwards. -/
structure Outcome where
  response : Response
  call : Option Event
  next : Sim
  deriving DecidableEq, Repr

/-- The exits `respondError(w, err); return` taken before any call of the
simulator. -/
def reject (s : Sim) (err : GoError) : Outcome :=
  { response := respondError err, call := none, next := s }

/-- The tail of `handleCmd` after the dispatch: `err` is the outer variable
`err`, `resp` the value to marshal, `call` and `next` what the dispatch did to
the simulator. -/
def render (lib : Library) (resp : Resp) (err : Option GoError) (call : Option Event)
    (next : Sim) : Outcome :=
  match err with
  | some e => { response := respondError e, call := call, next := next }
  | none =>
    match lib.jsonMarshal resp with
    | .error e => { response := respondError (plainError e), call := call, next := next }
    | .ok marshalled =>
      { response :=
          { code := StatusOK, contentLength := some marshalled.utf8ByteSize,
            body := marshalled },
        call := call, next := next }

/-- The five POST cases that read a client time: `readClientTime`, then the
call `k` of the simulator.  The `err` assigned by `resp, err = inst.Open(...)`
is the variable declared inside the case by `clientTime, err := ...`, so the
outer `err` tested after the switch stays nil. -/
def timedCmd (lib : Library) (s : Sim) (r : Request) (k : Int → Sim.Reply)
    (ev : Int → Event) : Outcome :=
  match readClientTime lib r with
  | .error e => reject s e
  | .ok clientTime =>
    render lib (Resp.status (k clientTime).status) none (some (ev clientTime))
      (k clientTime).next

/-- The second half of `handleCmd` (from `cmd := r.PathValue("cmd")` on): the
switch on method and command and the rendering of the result, `inst` being
the simulator in state `simHydra`. -/
def dispatch (lib : Library) (simHydra : Sim) (now : Int) (r : Request) : Outcome :=
  if r.method = "GET" then
    if r.cmd = "status" then
      render lib (Resp.status simHydra.Status.status) (simHydra.Status.err.map plainError)
        (some Event.status) simHydra.Status.next
    else
      reject simHydra (Errorf Code.Unimplemented ("unknown command GET " ++ r.cmd))
  else if r.method = "POST" then
    if r.cmd = "open" then
      timedCmd lib simHydra r (fun t => simHydra.Open t now) (fun t => Event.open t now)
    else if r.cmd = "close" then
      timedCmd lib simHydra r (fun t => simHydra.Close t now) (fun t => Event.close t now)
    else if r.cmd = "open-to-end" then
      timedCmd lib simHydra r (fun t => simHydra.OpenToEnd t now)
        (fun t => Event.openToEnd t now)
    else if r.cmd = "close-to-end" then
      timedCmd lib simHydra r (fun t => simHydra.CloseToEnd t now)
        (fun t => Event.closeToEnd t now)
    else if r.cmd = "stop" then
      timedCmd lib simHydra r (fun t => simHydra.Stop t now) (fun t => Event.stop t now)
    else if r.cmd = "sim-error" then
      render lib (Resp.text "ok, configured error") none (some (Event.simError true))
        (simHydra.SimError true)
    else if r.cmd = "sim-no-error" then
      render lib (Resp.text "ok, configured no error") none (some (Event.simError false))
        (simHydra.SimError false)
    else
      reject simHydra (Errorf Code.Unimplemented ("unknown command POST " ++ r.cmd))
  else
    { response := { code := StatusMethodNotAllowed, contentLength := none, body := "" },
      call := none, next := simHydra }

/-- The Go function `handleCmd(w, r, users, simHydra)`, the simulator being in
state `simHydra` and its clock reading `now` during the call: the
authentication and environment exits, then `dispatch`. -/
def handleCmd (lib : Library) (users : List String) (simHydra : Sim) (now : Int)
    (r : Request) : Outcome :=
  if r.auth.length = 0 ∨ r.auth.length > 1 then
    reject simHydra (Errorf Code.Unauthenticated "need Authorization header (exactly 1)")
  else if ¬ HasPrefix (r.auth.headD "") "Bearer " then
    reject simHydra (Errorf Code.Unauthenticated "need Authorization: Bearer ... header")
  else if ¬ (String.mk ((r.auth.headD "").data.drop "Bearer ".length)) ∈ users then
    reject simHydra (Errorf Code.PermissionDenied "auth failed")
  else if ¬ r.env = "sim" then
    reject simHydra
      (Errorf Code.Unimplemented "only simulated environment is available at the moment")
  else
    dispatch lib simHydra now r

/-- A small library for evaluating the dispatcher at concrete requests: it
decodes two bodies (a well-formed time and the text not-a-date), parses the
one well-formed time, and marshals a snapshot field by field, empty fields
left out, without escaping. -/
def sampleLibrary : Library where
  jsonDecode := fun body =>
    if body = "\x7b\"time\":\"2024-05-01T12:00:00Z\"\x7d" then .ok "2024-05-01T12:00:00Z"
    else if body = "\x7b\"time\":\"not-a-date\"\x7d" then .ok "not-a-date"
    else .error "invalid character"
  timeParse := fun raw =>
    if raw = "2024-05-01T12:00:00Z" then .ok 63850161600000000000
    else .error "cannot parse as \"2006\""
  jsonMarshal := fun resp =>
    match resp with
    | .status h =>
      .ok ("\x7b" ++ "\"status\":\"" ++ h.Status ++ "\""
        ++ (if h.Error = "" then "" else ",\"error\":\"" ++ h.Error ++ "\"")
        ++ (if h.Position = "" then "" else ",\"position\":\"" ++ h.Position ++ "\"")
        ++ "\x7d")
    | .text t => .ok ("\"" ++ t ++ "\"")

/-! ## Shared lemmas -/

/-- The range the data model gives the position. -/
def Sim.InRange (s : Sim) : Prop := 0 ≤ s.pos ∧ s.pos ≤ FULLY_OPEN

theorem wrapInt_of_small (x : Int) (h1 : -9223372036854775808 ≤ x)
    (h2 : x < 9223372036854775808) : wrapInt x = x := by
  unfold wrapInt
  omega

theorem Since_gt_iff (now t : Int) :
    Since now t > 1500 * Millisecond ↔ now - t > 1500 * Millisecond := by
  unfold Since maxDuration minDuration Millisecond
  split_ifs <;> omega

theorem step_InRange (s : Sim) (e : Event) (h : s.InRange) : (s.step e).InRange := by
  unfold Sim.InRange FULLY_OPEN at *
  cases e <;>
    simp only [Sim.step, Sim.Open, Sim.Close, Sim.OpenToEnd, Sim.CloseToEnd, Sim.Stop,
      Sim.SimError, Sim.Status, Sim.doDriving, FULLY_OPEN] <;>
    (try split_ifs) <;> (try simp only []) <;>
    first
      | exact h
      | (rw [wrapInt_of_small _ (by omega) (by omega)]; omega)

theorem run_InRange (es : List Event) (s : Sim) (h : s.InRange) : (s.run es).InRange := by
  induction es generalizing s with
  | nil => exact h
  | cons e es ih => exact ih (s.step e) (step_InRange s e h)

theorem doDriving_delta (s : Sim) (now : Int) (h : s.InRange) :
    |(s.doDriving now).pos - s.pos| ≤ 1 := by
  unfold Sim.InRange FULLY_OPEN at h
  simp only [Sim.doDriving, FULLY_OPEN]
  split_ifs <;> (try simp only []) <;>
    first
      | simp
      | (rw [wrapInt_of_small _ (by omega) (by omega)]; simp)

theorem doDriving_none (s : Sim) (now : Int) (h : s.drivingMode = DRIVING_NONE) :
    s.doDriving now = s := by
  simp [Sim.doDriving, h, DRIVING_NONE, DRIVING_OPEN_CTL, DRIVING_CLOSE_CTL,
    DRIVING_OPEN_TO_END, DRIVING_CLOSE_TO_END]

theorem ticks_none (nows : List Int) (s : Sim) (h : s.drivingMode = DRIVING_NONE) :
    s.ticks nows = s := by
  induction nows with
  | nil => rfl
  | cons now rest ih =>
    simpa [Sim.ticks, List.foldl_cons, doDriving_none s now h] using ih

theorem ticks_cons (s : Sim) (now : Int) (rest : List Int) :
    s.ticks (now :: rest) = (s.doDriving now).ticks rest := rfl

theorem ticks_append (s : Sim) (xs ys : List Int) :
    s.ticks (xs ++ ys) = (s.ticks xs).ticks ys := by
  simp [Sim.ticks, List.foldl_append]

/-- Ticks under OPEN_TO_END from an in-range position: closed form of every
field after any number of ticks. -/
theorem open_to_end_ticks (nows : List Int) : ∀ s : Sim, 0 ≤ s.pos → s.pos ≤ 100 →
    s.drivingMode = DRIVING_OPEN_TO_END →
    s.ticks nows =
      { s with
        pos := min (s.pos + nows.length) 100
        drivingMode :=
          if (nows.length : Int) ≤ 100 - s.pos then DRIVING_OPEN_TO_END else DRIVING_NONE } := by
  induction nows with
  | nil =>
    intro s h0 h1 hm
    obtain ⟨p, e, m, t⟩ := s
    simp only [] at h0 h1 hm
    simp [Sim.ticks, hm]
    omega
  | cons now rest ih =>
    intro s h0 h1 hm
    obtain ⟨p, e, m, t⟩ := s
    simp only [] at h0 h1 hm
    subst hm
    rw [ticks_cons]
    by_cases hp : p = 100
    · subst hp
      have hstep : (Sim.mk 100 e DRIVING_OPEN_TO_END t).doDriving now
          = Sim.mk 100 e DRIVING_NONE t := by
        simp [Sim.doDriving, DRIVING_NONE, DRIVING_OPEN_CTL, DRIVING_CLOSE_CTL,
          DRIVING_OPEN_TO_END, FULLY_OPEN]
      rw [hstep, ticks_none rest _ rfl]
      simp only [List.length_cons, Nat.cast_add, Nat.cast_one, Sim.mk.injEq, true_and, and_true]
      constructor
      · omega
      · rw [if_neg (by omega)]
    · have hstep : (Sim.mk p e DRIVING_OPEN_TO_END t).doDriving now
          = Sim.mk (p + 1) e DRIVING_OPEN_TO_END t := by
        simp [Sim.doDriving, DRIVING_NONE, DRIVING_OPEN_CTL, DRIVING_CLOSE_CTL,
          DRIVING_OPEN_TO_END, FULLY_OPEN, hp]
        exact wrapInt_of_small _ (by omega) (by omega)
      rw [hstep, ih _ (by simp only []; omega) (by simp only []; omega) rfl]
      simp only [List.length_cons, Nat.cast_add, Nat.cast_one, Sim.mk.injEq, true_and, and_true]
      constructor
      · omega
      · by_cases hc : (rest.length : Int) ≤ 100 - (p + 1)
        · rw [if_pos hc, if_pos (by omega)]
        · rw [if_neg hc, if_neg (by omega)]

/-- Ticks under CLOSE_TO_END from an in-range position: closed form of every
field after any number of ticks. -/
theorem close_to_end_ticks (nows : List Int) : ∀ s : Sim, 0 ≤ s.pos → s.pos ≤ 100 →
    s.drivingMode = DRIVING_CLOSE_TO_END →
    s.ticks nows =
      { s with
        pos := max (s.pos - nows.length) 0
        drivingMode :=
          if (nows.length : Int) ≤ s.pos then DRIVING_CLOSE_TO_END else DRIVING_NONE } := by
  induction nows with
  | nil =>
    intro s h0 h1 hm
    obtain ⟨p, e, m, t⟩ := s
    simp only [] at h0 h1 hm
    simp [Sim.ticks, hm]
    omega
  | cons now rest ih =>
    intro s h0 h1 hm
    obtain ⟨p, e, m, t⟩ := s
    simp only [] at h0 h1 hm
    subst hm
    rw [ticks_cons]
    by_cases hp : p = 0
    · subst hp
      have hstep : (Sim.mk 0 e DRIVING_CLOSE_TO_END t).doDriving now
          = Sim.mk 0 e DRIVING_NONE t := by
        simp [Sim.doDriving, DRIVING_NONE, DRIVING_OPEN_CTL, DRIVING_CLOSE_CTL,
          DRIVING_OPEN_TO_END, DRIVING_CLOSE_TO_END, FULLY_OPEN]
      rw [hstep, ticks_none rest _ rfl]
      simp only [List.length_cons, Nat.cast_add, Nat.cast_one, Sim.mk.injEq, true_and, and_true]
      constructor
      · omega
      · rw [if_neg (by omega)]
    · have hstep : (Sim.mk p e DRIVING_CLOSE_TO_END t).doDriving now
          = Sim.mk (p - 1) e DRIVING_CLOSE_TO_END t := by
        simp [Sim.doDriving, DRIVING_NONE, DRIVING_OPEN_CTL, DRIVING_CLOSE_CTL,
          DRIVING_OPEN_TO_END, DRIVING_CLOSE_TO_END, FULLY_OPEN, hp]
        exact wrapInt_of_small _ (by omega) (by omega)
      rw [hstep, ih _ (by simp only []; omega) (by simp only []; omega) rfl]
      simp only [List.length_cons, Nat.cast_add, Nat.cast_one, Sim.mk.injEq, true_and, and_true]
      constructor
      · omega
      · by_cases hc : (rest.length : Int) ≤ p - 1
        · rw [if_pos hc, if_pos (by omega)]
        · rw [if_neg hc, if_neg (by omega)]

/-! ## Shared lemmas on the dispatcher -/

theorem hasPrefix_iff (a pre : String) :
    HasPrefix a pre = true ↔ ∃ rest : String, a = pre ++ rest := by
  unfold HasPrefix
  rw [List.isPrefixOf_iff_prefix]
  constructor
  · rintro ⟨t, ht⟩
    exact ⟨String.mk t, by rw [String.ext_iff, String.data_append, ← ht]⟩
  · rintro ⟨rest, hr⟩
    exact ⟨rest.data, by rw [hr, String.data_append]⟩

theorem drop_bearer (token : String) :
    String.mk (("Bearer " ++ token).data.drop "Bearer ".length) = token := by
  rw [String.ext_iff, String.data_append]
  exact List.drop_left _ _

theorem Errorf_text_ne_empty (c : Code) (msg : String) : (Errorf c msg).text ≠ "" := by
  intro h
  have hl := congrArg String.length h
  simp only [Errorf, String.length_append] at hl
  have h18 : "rpc error: code = ".length = 18 := by decide
  have h0 : "".length = 0 := by decide
  omega

theorem respondError_of_ne_unknown (e : GoError) (h : e.code ≠ Code.Unknown) :
    respondError e
      = { code := toHttpStatus e.code, contentLength := some e.text.utf8ByteSize,
          body := e.text } := by
  simp [respondError, h]

/-- A request with exactly one Authorization value, "Bearer " followed by a
token of the known users, passes the three authentication exits. -/
theorem auth_passes (users : List String) (r : Request) (token : String)
    (ha : r.auth = ["Bearer " ++ token]) (hu : token ∈ users) :
    ¬ (r.auth.length = 0 ∨ r.auth.length > 1) ∧
      ¬ (¬ HasPrefix (r.auth.headD "") "Bearer ") ∧
      ¬ (¬ (String.mk ((r.auth.headD "").data.drop "Bearer ".length)) ∈ users) := by
  refine ⟨?_, ?_, ?_⟩
  · simp [ha]
  · simp only [ha, List.headD_cons, not_not]
    exact (hasPrefix_iff _ _).mpr ⟨token, rfl⟩
  · simp only [ha, List.headD_cons, not_not, drop_bearer]
    exact hu

theorem render_call (lib : Library) (resp : Resp) (err : Option GoError)
    (call : Option Event) (next : Sim) : (render lib resp err call next).call = call := by
  unfold render
  cases err with
  | some e => rfl
  | none => cases lib.jsonMarshal resp <;> rfl

theorem render_next (lib : Library) (resp : Resp) (err : Option GoError)
    (call : Option Event) (next : Sim) : (render lib resp err call next).next = next := by
  unfold render
  cases err with
  | some e => rfl
  | none => cases lib.jsonMarshal resp <;> rfl

/-- The two ways out of a POST case that reads a client time. -/
theorem timedCmd_cases (lib : Library) (s : Sim) (r : Request) (k : Int → Sim.Reply)
    (ev : Int → Event) :
    (∃ e, readClientTime lib r = .error e ∧ timedCmd lib s r k ev = reject s e) ∨
      (∃ t, readClientTime lib r = .ok t ∧
        timedCmd lib s r k ev
          = render lib (Resp.status (k t).status) none (some (ev t)) (k t).next) := by
  unfold timedCmd
  cases readClientTime lib r with
  | error e => exact Or.inl ⟨e, rfl, rfl⟩
  | ok t => exact Or.inr ⟨t, rfl, rfl⟩

/-- For one POST case: the state after it is the state before it when no
method was called, and the result of the tagged call otherwise. -/
theorem timedCmd_next (lib : Library) (s : Sim) (r : Request) (k : Int → Sim.Reply)
    (ev : Int → Event) (hk : ∀ t, s.step (ev t) = (k t).next) :
    (timedCmd lib s r k ev).next
      = (match (timedCmd lib s r k ev).call with
        | none => s
        | some e => s.step e) := by
  rcases timedCmd_cases lib s r k ev with ⟨e, _, h⟩ | ⟨t, _, h⟩
  · rw [h]; rfl
  · rw [h, render_call, render_next]
    exact (hk t).symm

/-- The tag `call` is honest: the state after the request is the state before
it when no method was called, and the result of that one call otherwise. -/
theorem dispatch_next_eq_step (lib : Library) (s : Sim) (now : Int) (r : Request) :
    (dispatch lib s now r).next
      = (match (dispatch lib s now r).call with
        | none => s
        | some e => s.step e) := by
  unfold dispatch
  split_ifs <;>
    first
      | rfl
      | exact timedCmd_next lib s r _ _ (fun _ => rfl)
      | (rw [render_call, render_next]; rfl)

/-- The four exits of `handleCmd` before the dispatch, and the dispatch. -/
theorem handleCmd_cases (lib : Library) (users : List String) (s : Sim) (now : Int)
    (r : Request) :
    (∃ e, handleCmd lib users s now r = reject s e) ∨
      ((∃ token : String, r.auth = ["Bearer " ++ token] ∧ token ∈ users) ∧ r.env = "sim" ∧
        handleCmd lib users s now r = dispatch lib s now r) := by
  unfold handleCmd
  by_cases h1 : r.auth.length = 0 ∨ r.auth.length > 1
  · rw [if_pos h1]; exact Or.inl ⟨_, rfl⟩
  rw [if_neg h1]
  by_cases h2 : ¬ HasPrefix (r.auth.headD "") "Bearer "
  · rw [if_pos h2]; exact Or.inl ⟨_, rfl⟩
  rw [if_neg h2]
  by_cases h3 : ¬ (String.mk ((r.auth.headD "").data.drop "Bearer ".length)) ∈ users
  · rw [if_pos h3]; exact Or.inl ⟨_, rfl⟩
  rw [if_neg h3]
  by_cases h4 : ¬ r.env = "sim"
  · rw [if_pos h4]; exact Or.inl ⟨_, rfl⟩
  rw [if_neg h4]
  refine Or.inr ⟨?_, not_not.mp h4, rfl⟩
  obtain ⟨a, ha⟩ : ∃ a, r.auth = [a] := by
    match hr : r.auth with
    | [] => simp [hr] at h1
    | [a] => exact ⟨a, rfl⟩
    | _ :: _ :: _ => simp [hr] at h1
  rw [ha] at h2 h3
  simp only [List.headD_cons, not_not] at h2 h3
  obtain ⟨token, ht⟩ := (hasPrefix_iff _ _).mp h2
  subst ht
  rw [drop_bearer] at h3
  exact ⟨token, ha, h3⟩

/-- An authenticated request to the environment "sim" reaches the dispatch. -/
theorem handleCmd_authed (lib : Library) (users : List String) (s : Sim) (now : Int)
    (r : Request) (token : String) (ha : r.auth = ["Bearer " ++ token]) (hu : token ∈ users)
    (he : r.env = "sim") : handleCmd lib users s now r = dispatch lib s now r := by
  obtain ⟨h1, h2, h3⟩ := auth_passes users r token ha hu
  unfold handleCmd
  rw [if_neg h1, if_neg h2, if_neg h3, if_neg (not_not.mpr he)]

/-- The tag `call` is honest: the state after the request is the state before
it when no method was called, and the result of that one call otherwise. -/
theorem next_eq_step (lib : Library) (users : List String) (s : Sim) (now : Int)
    (r : Request) :
    (handleCmd lib users s now r).next
      = (match (handleCmd lib users s now r).call with
        | none => s
        | some e => s.step e) := by
  rcases handleCmd_cases lib users s now r with ⟨e, h⟩ | ⟨_, _, h⟩
  · rw [h]; rfl
  · rw [h]; exact dispatch_next_eq_step lib s now r

theorem timedCmd_error (lib : Library) (s : Sim) (r : Request) (k : Int → Sim.Reply)
    (ev : Int → Event) (e : GoError) (h : readClientTime lib r = .error e) :
    timedCmd lib s r k ev = reject s e := by
  unfold timedCmd
  rw [h]

/-- A body that does not decode, or whose time does not parse, makes
`readClientTime` return an InvalidArgument error. -/
theorem readClientTime_bad (lib : Library) (r : Request)
    (hbad : (∃ e, lib.jsonDecode r.body = .error e) ∨
      (∃ raw e, lib.jsonDecode r.body = .ok raw ∧ lib.timeParse raw = .error e)) :
    ∃ msg, readClientTime lib r = .error (Errorf Code.InvalidArgument msg) := by
  unfold readClientTime
  rcases hbad with ⟨e, he⟩ | ⟨raw, e, hd, hp⟩
  · rw [he]; exact ⟨_, rfl⟩
  · rw [hd]
    simp only []
    rw [hp]; exact ⟨_, rfl⟩

/-- When marshalling succeeds, the tail of `handleCmd` answers 200. -/
theorem render_ok (lib : Library) (hmarshal : ∀ resp, ∃ b, lib.jsonMarshal resp = .ok b)
    (resp : Resp) (call : Option Event) (next : Sim) :
    (render lib resp none call next).response.code = 200 := by
  obtain ⟨b, hb⟩ := hmarshal resp
  unfold render
  simp only [hb]
  rfl

/-- The three shapes of what the dispatch returns: an error exit before any
call, the 405 answer, or the rendering of a call made with a nil `err`. -/
theorem dispatch_cases (lib : Library) (s : Sim) (now : Int) (r : Request) :
    (∃ e, dispatch lib s now r = reject s e) ∨
      dispatch lib s now r
        = { response := { code := StatusMethodNotAllowed, contentLength := none, body := "" },
            call := none, next := s } ∨
      (∃ resp call next, dispatch lib s now r = render lib resp none call next) := by
  have htimed : ∀ (k : Int → Sim.Reply) (ev : Int → Event),
      (∃ e, timedCmd lib s r k ev = reject s e) ∨
        timedCmd lib s r k ev
          = { response :=
                { code := StatusMethodNotAllowed, contentLength := none, body := "" },
              call := none, next := s } ∨
        (∃ resp call next, timedCmd lib s r k ev = render lib resp none call next) := by
    intro k ev
    rcases timedCmd_cases lib s r k ev with ⟨e, _, ht⟩ | ⟨t, _, ht⟩
    · exact Or.inl ⟨e, ht⟩
    · exact Or.inr (Or.inr ⟨_, _, _, ht⟩)
  generalize hd : dispatch lib s now r = d
  unfold dispatch at hd
  split_ifs at hd <;> subst hd <;>
    first
      | exact htimed _ _
      | exact Or.inl ⟨_, rfl⟩
      | exact Or.inr (Or.inl rfl)
      | exact Or.inr (Or.inr ⟨_, _, _, rfl⟩)

theorem timedCmd_ok (lib : Library) (s : Sim) (r : Request) (k : Int → Sim.Reply)
    (ev : Int → Event) (t : Int) (h : readClientTime lib r = .ok t) :
    timedCmd lib s r k ev
      = render lib (Resp.status (k t).status) none (some (ev t)) (k t).next := by
  unfold timedCmd
  rw [h]

/-- What `handleCmd` answers and the state it leaves depend on the request
only through the Authorization values, the environment and the dispatch. -/
theorem handleCmd_congr (lib : Library) (users : List String) (s : Sim) (now : Int)
    (r1 r2 : Request) (ha : r1.auth = r2.auth) (he : r1.env = r2.env)
    (hd : (dispatch lib s now r1).response = (dispatch lib s now r2).response ∧
      (dispatch lib s now r1).next = (dispatch lib s now r2).next) :
    (handleCmd lib users s now r1).response = (handleCmd lib users s now r2).response ∧
      (handleCmd lib users s now r1).next = (handleCmd lib users s now r2).next := by
  unfold handleCmd
  rw [ha, he]
  by_cases h1 : r2.auth.length = 0 ∨ r2.auth.length > 1
  · rw [if_pos h1, if_pos h1]; exact ⟨rfl, rfl⟩
  rw [if_neg h1, if_neg h1]
  by_cases h2 : ¬ HasPrefix (r2.auth.headD "") "Bearer "
  · rw [if_pos h2, if_pos h2]; exact ⟨rfl, rfl⟩
  rw [if_neg h2, if_neg h2]
  by_cases h3 : ¬ (String.mk ((r2.auth.headD "").data.drop "Bearer ".length)) ∈ users
  · rw [if_pos h3, if_pos h3]; exact ⟨rfl, rfl⟩
  rw [if_neg h3, if_neg h3]
  by_cases h4 : ¬ r2.env = "sim"
  · rw [if_pos h4, if_pos h4]; exact ⟨rfl, rfl⟩
  rw [if_neg h4, if_neg h4]
  exact hd

/-- The answer of the tail of `handleCmd` does not depend on which call is
recorded. -/
theorem render_response (lib : Library) (resp : Resp) (err : Option GoError)
    (call1 call2 : Option Event) (next : Sim) :
    (render lib resp err call1 next).response = (render lib resp err call2 next).response := by
  unfold render
  cases err with
  | some e => rfl
  | none => cases lib.jsonMarshal resp <;> rfl

/-- One POST case on two requests that both carry a readable client time. -/
theorem timedCmd_body (lib : Library) (s : Sim) (r1 r2 : Request) (k : Int → Sim.Reply)
    (ev : Int → Event) (t1 t2 : Int) (h1 : readClientTime lib r1 = .ok t1)
    (h2 : readClientTime lib r2 = .ok t2) (hk : k t1 = k t2) :
    (timedCmd lib s r1 k ev).response = (timedCmd lib s r2 k ev).response ∧
      (timedCmd lib s r1 k ev).next = (timedCmd lib s r2 k ev).next := by
  rw [timedCmd_ok lib s r1 k ev t1 h1, timedCmd_ok lib s r2 k ev t2 h2, hk]
  exact ⟨render_response lib _ _ _ _ _, by rw [render_next, render_next]⟩

/-- Two requests with the same method and command, both carrying a readable
client time, get the same answer from the dispatch and leave the same
state. -/
theorem dispatch_body (lib : Library) (s : Sim) (now : Int) (r1 r2 : Request) (t1 t2 : Int)
    (hm : r1.method = r2.method) (hc : r1.cmd = r2.cmd)
    (h1 : readClientTime lib r1 = .ok t1) (h2 : readClientTime lib r2 = .ok t2) :
    (dispatch lib s now r1).response = (dispatch lib s now r2).response ∧
      (dispatch lib s now r1).next = (dispatch lib s now r2).next := by
  unfold dispatch
  rw [hm, hc]
  by_cases hg : r2.method = "GET"
  · rw [if_pos hg, if_pos hg]; exact ⟨rfl, rfl⟩
  rw [if_neg hg, if_neg hg]
  by_cases hp : r2.method = "POST"
  swap
  · rw [if_neg hp, if_neg hp]; exact ⟨rfl, rfl⟩
  rw [if_pos hp, if_pos hp]
  by_cases c1 : r2.cmd = "open"
  · rw [if_pos c1, if_pos c1]; exact timedCmd_body lib s r1 r2 _ _ t1 t2 h1 h2 rfl
  rw [if_neg c1, if_neg c1]
  by_cases c2 : r2.cmd = "close"
  · rw [if_pos c2, if_pos c2]; exact timedCmd_body lib s r1 r2 _ _ t1 t2 h1 h2 rfl
  rw [if_neg c2, if_neg c2]
  by_cases c3 : r2.cmd = "open-to-end"
  · rw [if_pos c3, if_pos c3]; exact timedCmd_body lib s r1 r2 _ _ t1 t2 h1 h2 rfl
  rw [if_neg c3, if_neg c3]
  by_cases c4 : r2.cmd = "close-to-end"
  · rw [if_pos c4, if_pos c4]; exact timedCmd_body lib s r1 r2 _ _ t1 t2 h1 h2 rfl
  rw [if_neg c4, if_neg c4]
  by_cases c5 : r2.cmd = "stop"
  · rw [if_pos c5, if_pos c5]; exact timedCmd_body lib s r1 r2 _ _ t1 t2 h1 h2 rfl
  rw [if_neg c5, if_neg c5]
  exact ⟨rfl, rfl⟩

/-! ## Claims -/

/-- C1: from the zero-value simulator, after every finite sequence of
commands, status queries, error injections and ticks, at any clock readings,
the position lies in [0, 100], and one more tick moves it by at most 1. -/
theorem C1_position_range (es : List Event) :
    0 ≤ (Sim.zero.run es).pos ∧ (Sim.zero.run es).pos ≤ 100 ∧
      ∀ now : Int, |((Sim.zero.run es).doDriving now).pos - (Sim.zero.run es).pos| ≤ 1 := by
  have h : (Sim.zero.run es).InRange :=
    run_InRange es Sim.zero (by unfold Sim.InRange Sim.zero FULLY_OPEN; decide)
  exact ⟨h.1, h.2, fun now => doDriving_delta _ now h⟩

/-- C2: from a state in mode OPEN_TO_END at a position p in [0, 100], after n
consecutive ticks at arbitrary clock readings the position is min (p + n) 100,
one more tick never lowers it, the mode is still OPEN_TO_END while
n ≤ 100 - p, and for n > 100 - p the mode is NONE and the position is 100. -/
theorem C2_open_to_end (s : Sim) (nows : List Int) (h0 : 0 ≤ s.pos) (h1 : s.pos ≤ 100)
    (hm : s.drivingMode = DRIVING_OPEN_TO_END) :
    (s.ticks nows).pos = min (s.pos + nows.length) 100 ∧
      (∀ now : Int, (s.ticks nows).pos ≤ (s.ticks (nows ++ [now])).pos) ∧
      ((nows.length : Int) ≤ 100 - s.pos →
        (s.ticks nows).drivingMode = DRIVING_OPEN_TO_END) ∧
      ((nows.length : Int) > 100 - s.pos →
        (s.ticks nows).drivingMode = DRIVING_NONE ∧ (s.ticks nows).pos = 100) := by
  refine ⟨?_, ?_, ?_, ?_⟩
  · rw [open_to_end_ticks nows s h0 h1 hm]
  · intro now
    rw [open_to_end_ticks nows s h0 h1 hm, open_to_end_ticks (nows ++ [now]) s h0 h1 hm]
    simp only [List.length_append, List.length_singleton, Nat.cast_add, Nat.cast_one]
    omega
  · intro hn
    rw [open_to_end_ticks nows s h0 h1 hm]
    simp only [if_pos hn]
  · intro hn
    rw [open_to_end_ticks nows s h0 h1 hm]
    have hn2 : ¬ (nows.length : Int) ≤ 100 - s.pos := by omega
    simp only [if_neg hn2, true_and]
    omega

/-- C2 at position 98 with three ticks: the position ends at 100 and the mode
has fallen back to NONE. -/
theorem C2_open_to_end_witness :
    ((Sim.mk 98 "" DRIVING_OPEN_TO_END 0).ticks [7, 500000007, 99000000007]).pos
        = min (98 + 3) 100 ∧
      ((Sim.mk 98 "" DRIVING_OPEN_TO_END 0).ticks [7, 500000007, 99000000007]).drivingMode
        = DRIVING_NONE := by
  have h := C2_open_to_end (Sim.mk 98 "" DRIVING_OPEN_TO_END 0) [7, 500000007, 99000000007]
    (by decide) (by decide) rfl
  exact ⟨h.1, (h.2.2.2 (by decide)).1⟩

/-- C3: from a state in mode CLOSE_TO_END at a position p in [0, 100], after n
consecutive ticks at arbitrary clock readings the position is max (p - n) 0,
one more tick never raises it, the mode is still CLOSE_TO_END while n ≤ p, and
for n > p the mode is NONE and the position is 0. -/
theorem C3_close_to_end (s : Sim) (nows : List Int) (h0 : 0 ≤ s.pos) (h1 : s.pos ≤ 100)
    (hm : s.drivingMode = DRIVING_CLOSE_TO_END) :
    (s.ticks nows).pos = max (s.pos - nows.length) 0 ∧
      (∀ now : Int, (s.ticks (nows ++ [now])).pos ≤ (s.ticks nows).pos) ∧
      ((nows.length : Int) ≤ s.pos →
        (s.ticks nows).drivingMode = DRIVING_CLOSE_TO_END) ∧
      ((nows.length : Int) > s.pos →
        (s.ticks nows).drivingMode = DRIVING_NONE ∧ (s.ticks nows).pos = 0) := by
  refine ⟨?_, ?_, ?_, ?_⟩
  · rw [close_to_end_ticks nows s h0 h1 hm]
  · intro now
    rw [close_to_end_ticks nows s h0 h1 hm, close_to_end_ticks (nows ++ [now]) s h0 h1 hm]
    simp only [List.length_append, List.length_singleton, Nat.cast_add, Nat.cast_one]
    omega
  · intro hn
    rw [close_to_end_ticks nows s h0 h1 hm]
    simp only [if_pos hn]
  · intro hn
    rw [close_to_end_ticks nows s h0 h1 hm]
    have hn2 : ¬ (nows.length : Int) ≤ s.pos := by omega
    simp only [if_neg hn2, true_and]
    omega

/-- C3 at position 2 with three ticks: the position ends at 0 and the mode has
fallen back to NONE. -/
theorem C3_close_to_end_witness :
    ((Sim.mk 2 "" DRIVING_CLOSE_TO_END 0).ticks [7, 500000007, 99000000007]).pos
        = max (2 - 3) 0 ∧
      ((Sim.mk 2 "" DRIVING_CLOSE_TO_END 0).ticks [7, 500000007, 99000000007]).drivingMode
        = DRIVING_NONE := by
  have h := C3_close_to_end (Sim.mk 2 "" DRIVING_CLOSE_TO_END 0) [7, 500000007, 99000000007]
    (by decide) (by decide) rfl
  exact ⟨h.1, (h.2.2.2 (by decide)).1⟩

/-- C4: in a hold mode (OPEN_CTL or CLOSE_CTL), a tick read more than 1500 ms
after lastDrivingCmd sets the mode to NONE and changes no other field,
whatever the position; a tick read at most 1500 ms after it (1500 ms exactly
included) gives the fields the same tick gives from the to-end mode of the
same direction, the mode being NONE where that one is NONE and the hold mode
otherwise: at the end stop only the mode falls to NONE, elsewhere only the
position moves one step. -/
theorem C4_hold_expiry (s : Sim) (now : Int)
    (hm : s.drivingMode = DRIVING_OPEN_CTL ∨ s.drivingMode = DRIVING_CLOSE_CTL) :
    (now - s.lastDrivingCmd > 1500 * Millisecond →
        s.doDriving now = { s with drivingMode := DRIVING_NONE }) ∧
      (now - s.lastDrivingCmd ≤ 1500 * Millisecond →
        (s.drivingMode = DRIVING_OPEN_CTL →
          s.doDriving now =
              { ({ s with drivingMode := DRIVING_OPEN_TO_END } : Sim).doDriving now with
                drivingMode := if s.pos = 100 then DRIVING_NONE else DRIVING_OPEN_CTL } ∧
            (({ s with drivingMode := DRIVING_OPEN_TO_END } : Sim).doDriving now).drivingMode
              = (if s.pos = 100 then DRIVING_NONE else DRIVING_OPEN_TO_END) ∧
            s.doDriving now =
              (if s.pos = 100 then { s with drivingMode := DRIVING_NONE }
               else { s with pos := wrapInt (s.pos + 1) })) ∧
        (s.drivingMode = DRIVING_CLOSE_CTL →
          s.doDriving now =
              { ({ s with drivingMode := DRIVING_CLOSE_TO_END } : Sim).doDriving now with
                drivingMode := if s.pos = 0 then DRIVING_NONE else DRIVING_CLOSE_CTL } ∧
            (({ s with drivingMode := DRIVING_CLOSE_TO_END } : Sim).doDriving now).drivingMode
              = (if s.pos = 0 then DRIVING_NONE else DRIVING_CLOSE_TO_END) ∧
            s.doDriving now =
              (if s.pos = 0 then { s with drivingMode := DRIVING_NONE }
               else { s with pos := wrapInt (s.pos - 1) }))) := by
  obtain ⟨p, e, m, t⟩ := s
  simp only [] at hm
  refine ⟨?_, ?_⟩
  · intro hlate
    have hs := (Since_gt_iff now t).mpr hlate
    simp only [Sim.doDriving]
    rw [if_pos ⟨hm, hs⟩]
  · intro hearly
    have hs : ¬ Since now t > 1500 * Millisecond := by
      rw [Since_gt_iff]
      simp only [] at hearly
      omega
    refine ⟨?_, ?_⟩
    · intro ho
      simp only [] at ho
      subst ho
      by_cases hp : p = 100 <;>
        simp [Sim.doDriving, hs, hp, DRIVING_NONE, DRIVING_OPEN_CTL, DRIVING_CLOSE_CTL,
          DRIVING_OPEN_TO_END, DRIVING_CLOSE_TO_END, FULLY_OPEN]
    · intro hc
      simp only [] at hc
      subst hc
      by_cases hp : p = 0 <;>
        simp [Sim.doDriving, hs, hp, DRIVING_NONE, DRIVING_OPEN_CTL, DRIVING_CLOSE_CTL,
          DRIVING_OPEN_TO_END, DRIVING_CLOSE_TO_END, FULLY_OPEN]

/-- C4 at position 50 in OPEN_CTL with lastDrivingCmd = 1000 ns: a tick at
1500 ms + 1 ns after it only resets the mode, a tick at exactly 1500 ms after
it moves the position to 51 and keeps the mode. -/
theorem C4_hold_expiry_witness :
    (Sim.mk 50 "" DRIVING_OPEN_CTL 1000).doDriving 1500001001
        = Sim.mk 50 "" DRIVING_NONE 1000 ∧
      (Sim.mk 50 "" DRIVING_OPEN_CTL 1000).doDriving 1500001000
        = Sim.mk 51 "" DRIVING_OPEN_CTL 1000 := by
  refine ⟨?_, ?_⟩
  · exact (C4_hold_expiry (Sim.mk 50 "" DRIVING_OPEN_CTL 1000) 1500001001
      (Or.inl rfl)).1 (by decide)
  · have h := ((C4_hold_expiry (Sim.mk 50 "" DRIVING_OPEN_CTL 1000) 1500001000
      (Or.inl rfl)).2 (by decide)).1 rfl
    rw [h.2.2]
    decide

/-- C5: at position 100, Open and OpenToEnd leave every field of the state as
it was (mode, error and lastDrivingCmd included), return the nil error and
return the snapshot Status returns on the state before the call; at position
0 the same holds of Close and CloseToEnd. -/
theorem C5_noop_at_end_stop (s : Sim) (clientTime now : Int) :
    (s.pos = 100 →
        (s.Open clientTime now).next = s ∧ (s.Open clientTime now).err = none ∧
        (s.Open clientTime now).status = s.Status.status ∧
        (s.OpenToEnd clientTime now).next = s ∧ (s.OpenToEnd clientTime now).err = none ∧
        (s.OpenToEnd clientTime now).status = s.Status.status) ∧
      (s.pos = 0 →
        (s.Close clientTime now).next = s ∧ (s.Close clientTime now).err = none ∧
        (s.Close clientTime now).status = s.Status.status ∧
        (s.CloseToEnd clientTime now).next = s ∧ (s.CloseToEnd clientTime now).err = none ∧
        (s.CloseToEnd clientTime now).status = s.Status.status) := by
  refine ⟨?_, ?_⟩ <;> intro hp <;>
    simp [Sim.Open, Sim.OpenToEnd, Sim.Close, Sim.CloseToEnd, Sim.Status, FULLY_OPEN, hp]

/-- C5 on a fully open state still marked as closing with an error set, and on
a fully closed state still marked as opening: the four commands change
nothing and report the snapshot of the state as it is. -/
theorem C5_noop_at_end_stop_witness :
    ((Sim.mk 100 "x" DRIVING_CLOSE_CTL 5).Open 1 9).next = Sim.mk 100 "x" DRIVING_CLOSE_CTL 5 ∧
      ((Sim.mk 100 "x" DRIVING_CLOSE_CTL 5).OpenToEnd 1 9).status
        = { Status := "error", Error := "x", Position := "open" } ∧
      ((Sim.mk 0 "" DRIVING_OPEN_TO_END 5).Close 1 9).next = Sim.mk 0 "" DRIVING_OPEN_TO_END 5 ∧
      ((Sim.mk 0 "" DRIVING_OPEN_TO_END 5).CloseToEnd 1 9).status
        = { Status := "driving", Error := "", Position := "closed" } := by
  have ho := (C5_noop_at_end_stop (Sim.mk 100 "x" DRIVING_CLOSE_CTL 5) 1 9).1 rfl
  have hc := (C5_noop_at_end_stop (Sim.mk 0 "" DRIVING_OPEN_TO_END 5) 1 9).2 rfl
  refine ⟨ho.1, ?_, hc.1, ?_⟩
  · rw [ho.2.2.2.2.2]; decide
  · rw [hc.2.2.2.2.2]; decide

/-- C6: away from the end stop (position not 100 for Open and OpenToEnd, not 0
for Close and CloseToEnd), whatever the mode before, the command sets the mode
to OPEN_CTL, OPEN_TO_END, CLOSE_CTL or CLOSE_TO_END respectively, sets
lastDrivingCmd to the clock reading, keeps position and simulated error,
returns the nil error and the snapshot of the new state, whose status is
"driving" when no simulated error is set. -/
theorem C6_driving_commands (s : Sim) (clientTime now : Int) :
    (s.pos ≠ 100 →
        ((s.Open clientTime now).next
            = { s with drivingMode := DRIVING_OPEN_CTL, lastDrivingCmd := now } ∧
          (s.Open clientTime now).err = none ∧
          (s.Open clientTime now).status = (s.Open clientTime now).next.makeStatus ∧
          (s.simError = "" → (s.Open clientTime now).status.Status = "driving")) ∧
        ((s.OpenToEnd clientTime now).next
            = { s with drivingMode := DRIVING_OPEN_TO_END, lastDrivingCmd := now } ∧
          (s.OpenToEnd clientTime now).err = none ∧
          (s.OpenToEnd clientTime now).status = (s.OpenToEnd clientTime now).next.makeStatus ∧
          (s.simError = "" → (s.OpenToEnd clientTime now).status.Status = "driving"))) ∧
      (s.pos ≠ 0 →
        ((s.Close clientTime now).next
            = { s with drivingMode := DRIVING_CLOSE_CTL, lastDrivingCmd := now } ∧
          (s.Close clientTime now).err = none ∧
          (s.Close clientTime now).status = (s.Close clientTime now).next.makeStatus ∧
          (s.simError = "" → (s.Close clientTime now).status.Status = "driving")) ∧
        ((s.CloseToEnd clientTime now).next
            = { s with drivingMode := DRIVING_CLOSE_TO_END, lastDrivingCmd := now } ∧
          (s.CloseToEnd clientTime now).err = none ∧
          (s.CloseToEnd clientTime now).status
            = (s.CloseToEnd clientTime now).next.makeStatus ∧
          (s.simError = "" → (s.CloseToEnd clientTime now).status.Status = "driving"))) := by
  refine ⟨?_, ?_⟩ <;> intro hp <;> refine ⟨⟨?_, ?_, ?_, ?_⟩, ⟨?_, ?_, ?_, ?_⟩⟩ <;>
    first
      | (intro he
         simp [Sim.Open, Sim.OpenToEnd, Sim.Close, Sim.CloseToEnd, Sim.makeStatus, FULLY_OPEN,
           hp, he, STATUS_DRIVING, DRIVING_NONE, DRIVING_OPEN_CTL, DRIVING_OPEN_TO_END,
           DRIVING_CLOSE_CTL, DRIVING_CLOSE_TO_END])
      | simp [Sim.Open, Sim.OpenToEnd, Sim.Close, Sim.CloseToEnd, FULLY_OPEN, hp]

/-- C6 at position 40, idle, no error: Open at clock reading 9 gives mode
OPEN_CTL and lastDrivingCmd 9 and answers "driving", "inbetween"; CloseToEnd
gives mode CLOSE_TO_END. -/
theorem C6_driving_commands_witness :
    ((Sim.mk 40 "" DRIVING_NONE 5).Open 1 9).next = Sim.mk 40 "" DRIVING_OPEN_CTL 9 ∧
      ((Sim.mk 40 "" DRIVING_NONE 5).Open 1 9).status.Status = "driving" ∧
      ((Sim.mk 40 "" DRIVING_NONE 5).CloseToEnd 1 9).next
        = Sim.mk 40 "" DRIVING_CLOSE_TO_END 9 := by
  have ho := (C6_driving_commands (Sim.mk 40 "" DRIVING_NONE 5) 1 9).1 (by decide)
  have hc := (C6_driving_commands (Sim.mk 40 "" DRIVING_NONE 5) 1 9).2 (by decide)
  exact ⟨ho.1.1, ho.1.2.2.2 rfl, hc.2.1⟩

/-- C7: in every state Stop sets the mode to NONE, keeps position and
simulated error, returns the nil error and the snapshot of the resulting
state, whose status is "idle" when no simulated error is set; a tick directly
after Stop, at any clock reading, changes nothing (so neither position nor
mode). -/
theorem C7_stop (s : Sim) (clientTime now : Int) :
    (s.Stop clientTime now).next.drivingMode = DRIVING_NONE ∧
      (s.Stop clientTime now).next.pos = s.pos ∧
      (s.Stop clientTime now).next.simError = s.simError ∧
      (s.Stop clientTime now).err = none ∧
      (s.Stop clientTime now).status = (s.Stop clientTime now).next.makeStatus ∧
      (s.simError = "" → (s.Stop clientTime now).status.Status = "idle") ∧
      ∀ later : Int,
        (s.Stop clientTime now).next.doDriving later = (s.Stop clientTime now).next := by
  refine ⟨rfl, rfl, rfl, rfl, rfl, ?_, ?_⟩
  · intro he
    simp [Sim.Stop, Sim.makeStatus, he, STATUS_IDLE]
  · intro later
    exact doDriving_none _ later rfl

/-- C7 on a state driving to the open end at position 40 with no error: Stop
answers "idle", "inbetween" and leaves mode NONE at position 40. -/
theorem C7_stop_witness :
    ((Sim.mk 40 "" DRIVING_OPEN_TO_END 5).Stop 1 9).status.Status = "idle" ∧
      ((Sim.mk 40 "" DRIVING_OPEN_TO_END 5).Stop 1 9).next.drivingMode = DRIVING_NONE ∧
      ((Sim.mk 40 "" DRIVING_OPEN_TO_END 5).Stop 1 9).next.pos = 40 :=
  have h := C7_stop (Sim.mk 40 "" DRIVING_OPEN_TO_END 5) 1 9
  ⟨h.2.2.2.2.2.1 rfl, h.1, h.2.1⟩

/-- C8: in every state, after SimError(true) the mode is NONE, the position is
the one before the call, and Status answers with status "error" and a
non-empty error message (and does not change the state). -/
theorem C8_sim_error_on (s : Sim) :
    (s.SimError true).drivingMode = DRIVING_NONE ∧
      (s.SimError true).pos = s.pos ∧
      (s.SimError true).Status.status.Status = "error" ∧
      (s.SimError true).Status.status.Error ≠ "" ∧
      (s.SimError true).Status.err = none ∧
      (s.SimError true).Status.next = s.SimError true := by
  refine ⟨rfl, rfl, ?_, ?_, rfl, rfl⟩
  · simp [Sim.SimError, Sim.Status, Sim.makeStatus, STATUS_ERROR]
  · simp [Sim.SimError, Sim.Status, Sim.makeStatus]

/-- C9: in every state SimError(false) sets the simulated error to the empty
string and changes no other field (mode, position and lastDrivingCmd stay);
afterwards Status answers "idle" if the mode is NONE and "driving" otherwise,
with an empty error field. -/
theorem C9_sim_error_off (s : Sim) :
    s.SimError false = { s with simError := "" } ∧
      (s.SimError false).drivingMode = s.drivingMode ∧
      (s.SimError false).pos = s.pos ∧
      (s.SimError false).lastDrivingCmd = s.lastDrivingCmd ∧
      (s.SimError false).Status.status.Status
        = (if s.drivingMode = DRIVING_NONE then "idle" else "driving") ∧
      (s.SimError false).Status.status.Error = "" := by
  refine ⟨rfl, rfl, rfl, rfl, ?_, rfl⟩
  simp [Sim.SimError, Sim.Status, Sim.makeStatus, STATUS_IDLE, STATUS_DRIVING]

/-- C10: Status returns the snapshot makeStatus builds, with the nil error,
and leaves the state as it is.  In that snapshot the status is "error" iff the
simulated error is non-empty; when it is empty the status is "idle" iff the
mode is NONE and "driving" iff the mode is not NONE; the position field is
"closed" iff the position is 0, "open" iff it is 100, "inbetween" iff it is
neither, and is the same for any two states with the same numeric position;
the error field is the simulated error message. -/
theorem C10_snapshot (s : Sim) :
    s.Status.status = s.makeStatus ∧ s.Status.err = none ∧ s.Status.next = s ∧
      (s.makeStatus.Status = "error" ↔ s.simError ≠ "") ∧
      (s.simError = "" →
        (s.makeStatus.Status = "idle" ↔ s.drivingMode = DRIVING_NONE) ∧
        (s.makeStatus.Status = "driving" ↔ s.drivingMode ≠ DRIVING_NONE)) ∧
      (s.makeStatus.Position = "closed" ↔ s.pos = 0) ∧
      (s.makeStatus.Position = "open" ↔ s.pos = 100) ∧
      (s.makeStatus.Position = "inbetween" ↔ (s.pos ≠ 0 ∧ s.pos ≠ 100)) ∧
      (∀ s2 : Sim, s2.pos = s.pos → s2.makeStatus.Position = s.makeStatus.Position) ∧
      s.makeStatus.Error = s.simError := by
  refine ⟨rfl, rfl, rfl, ?_, ?_, ?_, ?_, ?_, ?_, rfl⟩
  · by_cases he : s.simError = "" <;> by_cases hm : s.drivingMode = DRIVING_NONE <;>
      simp [Sim.makeStatus, he, hm, STATUS_IDLE, STATUS_DRIVING, STATUS_ERROR]
  · intro he
    by_cases hm : s.drivingMode = DRIVING_NONE <;>
      simp [Sim.makeStatus, he, hm, STATUS_IDLE, STATUS_DRIVING, STATUS_ERROR]
  · by_cases h0 : s.pos = 0 <;> by_cases h1 : s.pos = 100 <;>
      simp [Sim.makeStatus, h0, h1, FULLY_OPEN, POSITION_CLOSED, POSITION_OPEN,
        POSITION_INBETWEEN]
  · by_cases h0 : s.pos = 0 <;> by_cases h1 : s.pos = 100 <;>
      simp [Sim.makeStatus, h0, h1, FULLY_OPEN, POSITION_CLOSED, POSITION_OPEN,
        POSITION_INBETWEEN]
  · by_cases h0 : s.pos = 0 <;> by_cases h1 : s.pos = 100 <;>
      simp [Sim.makeStatus, h0, h1, FULLY_OPEN, POSITION_CLOSED, POSITION_OPEN,
        POSITION_INBETWEEN]
  · intro s2 h2
    simp [Sim.makeStatus, h2]

/-- C11: from the zero-value simulator, OpenToEnd succeeds (nil error), and
after it and n ticks, with no other command, Status answers "driving" for
every n ≤ 100 and exactly status "idle", position "open" with an empty error
(and a nil error) for every n ≥ 101. -/
theorem C11_end_to_end_open (clientTime now : Int) (nows : List Int) :
    (Sim.zero.OpenToEnd clientTime now).err = none ∧
      (nows.length ≤ 100 →
        ((Sim.zero.OpenToEnd clientTime now).next.ticks nows).Status.status.Status
          = "driving") ∧
      (101 ≤ nows.length →
        ((Sim.zero.OpenToEnd clientTime now).next.ticks nows).Status.status
            = { Status := "idle", Error := "", Position := "open" } ∧
          ((Sim.zero.OpenToEnd clientTime now).next.ticks nows).Status.err = none) := by
  have hs : (Sim.zero.OpenToEnd clientTime now).next = Sim.mk 0 "" DRIVING_OPEN_TO_END now := by
    simp [Sim.OpenToEnd, Sim.zero, FULLY_OPEN]
  have ht := open_to_end_ticks nows (Sim.mk 0 "" DRIVING_OPEN_TO_END now)
    (le_refl 0) (by simp) rfl
  simp only [] at ht
  refine ⟨rfl, ?_, ?_⟩
  · intro hn
    have hn2 : (nows.length : Int) ≤ 100 - 0 := by omega
    rw [hs, ht, if_pos hn2]
    simp [Sim.Status, Sim.makeStatus, STATUS_DRIVING, DRIVING_OPEN_TO_END, DRIVING_NONE]
  · intro hn
    have hn2 : ¬ (nows.length : Int) ≤ 100 - 0 := by omega
    have hmin : min ((0 : Int) + nows.length) 100 = 100 := by omega
    rw [hs, ht, if_neg hn2, hmin]
    simp [Sim.Status, Sim.makeStatus, STATUS_IDLE, POSITION_OPEN, FULLY_OPEN]

/-- C11 with 100 and with 101 ticks: still "driving" after 100, and
"idle", "open" with no error after 101. -/
theorem C11_end_to_end_open_witness :
    ((Sim.zero.OpenToEnd 3 9).next.ticks (List.replicate 100 500)).Status.status.Status
        = "driving" ∧
      ((Sim.zero.OpenToEnd 3 9).next.ticks (List.replicate 101 500)).Status.status
        = { Status := "idle", Error := "", Position := "open" } :=
  ⟨(C11_end_to_end_open 3 9 (List.replicate 100 500)).2.1 (by simp),
    ((C11_end_to_end_open 3 9 (List.replicate 101 500)).2.2 (by simp)).1⟩

/-- C12: if the Authorization values are not exactly one, or the single value
is not "Bearer " followed by some text, `handleCmd` answers 401 with a
non-empty body; if the single value is "Bearer " followed by a token outside
the known users it answers 403; in both cases no method of the simulator is
called and its state is kept.  A method of the simulator is called only if
there is exactly one value, of the form "Bearer " ++ token with token among
the known users. -/
theorem C12_auth_gate (lib : Library) (users : List String) (s : Sim) (now : Int)
    (r : Request) :
    ((r.auth.length ≠ 1 ∨ ∃ a, r.auth = [a] ∧ ¬ ∃ token : String, a = "Bearer " ++ token) →
        (handleCmd lib users s now r).response.code = 401 ∧
        (handleCmd lib users s now r).response.body ≠ "" ∧
        (handleCmd lib users s now r).call = none ∧
        (handleCmd lib users s now r).next = s) ∧
      (∀ token : String, r.auth = ["Bearer " ++ token] → token ∉ users →
        (handleCmd lib users s now r).response.code = 403 ∧
        (handleCmd lib users s now r).call = none ∧
        (handleCmd lib users s now r).next = s) ∧
      ((handleCmd lib users s now r).call ≠ none →
        ∃ token : String, r.auth = ["Bearer " ++ token] ∧ token ∈ users) := by
  refine ⟨?_, ?_, ?_⟩
  · intro h
    have hne := Errorf_text_ne_empty
    rcases h with hlen | ⟨a, ha, hpre⟩
    · have h1 : r.auth.length = 0 ∨ r.auth.length > 1 := by omega
      unfold handleCmd
      rw [if_pos h1]
      refine ⟨rfl, ?_, rfl, rfl⟩
      rw [reject, respondError_of_ne_unknown _ (by decide)]
      exact hne _ _
    · have h1 : ¬ (r.auth.length = 0 ∨ r.auth.length > 1) := by simp [ha]
      have h2 : ¬ HasPrefix (r.auth.headD "") "Bearer " := by
        rw [ha, List.headD_cons, hasPrefix_iff]
        exact hpre
      unfold handleCmd
      rw [if_neg h1, if_pos h2]
      refine ⟨rfl, ?_, rfl, rfl⟩
      rw [reject, respondError_of_ne_unknown _ (by decide)]
      exact hne _ _
  · intro token ha hu
    have h1 : ¬ (r.auth.length = 0 ∨ r.auth.length > 1) := by simp [ha]
    have h2 : ¬ ¬ HasPrefix (r.auth.headD "") "Bearer " := by
      rw [ha, List.headD_cons, not_not, hasPrefix_iff]
      exact ⟨token, rfl⟩
    have h3 : ¬ (String.mk ((r.auth.headD "").data.drop "Bearer ".length)) ∈ users := by
      rw [ha, List.headD_cons, drop_bearer]
      exact hu
    unfold handleCmd
    rw [if_neg h1, if_neg h2, if_pos h3]
    exact ⟨rfl, rfl, rfl⟩
  · intro hc
    rcases handleCmd_cases lib users s now r with ⟨e, h⟩ | ⟨hauth, _, _⟩
    · rw [h] at hc
      exact absurd rfl hc
    · exact hauth

/-- C12 on three requests for GET sim/status with the known users "alice":
no Authorization value gives 401, the value "Basic abc" gives 401 and the
value "Bearer mallory" gives 403. -/
theorem C12_auth_gate_witness :
    (handleCmd sampleLibrary ["alice"] Sim.zero 0
        { method := "GET", env := "sim", cmd := "status", auth := [], body := "" }
      ).response.code = 401 ∧
    (handleCmd sampleLibrary ["alice"] Sim.zero 0
        { method := "GET", env := "sim", cmd := "status", auth := ["Basic abc"], body := "" }
      ).response.code = 401 ∧
    (handleCmd sampleLibrary ["alice"] Sim.zero 0
        { method := "GET", env := "sim", cmd := "status", auth := ["Bearer mallory"],
          body := "" }
      ).response.code = 403 := by
  refine ⟨?_, ?_, ?_⟩
  · exact ((C12_auth_gate sampleLibrary ["alice"] Sim.zero 0
      { method := "GET", env := "sim", cmd := "status", auth := [], body := "" }).1
      (Or.inl (by decide))).1
  · refine ((C12_auth_gate sampleLibrary ["alice"] Sim.zero 0
      { method := "GET", env := "sim", cmd := "status", auth := ["Basic abc"], body := "" }).1
      (Or.inr ⟨"Basic abc", rfl, ?_⟩)).1
    rw [← hasPrefix_iff]
    decide
  · exact ((C12_auth_gate sampleLibrary ["alice"] Sim.zero 0
      { method := "GET", env := "sim", cmd := "status", auth := ["Bearer mallory"],
        body := "" }).2.1 "mallory" rfl (by decide)).1

/-- C13 (what the code does): an authenticated POST to the environment "sim"
with command open, close, open-to-end, close-to-end or stop whose body does
not decode as JSON, or whose time does not parse, is answered with status 500
and the text of the InvalidArgument error as body; no method of the simulator
is called.  `toHttpStatus` has no case for InvalidArgument, so the code falls
to the default, while the case Internal is the one mapped to 400. -/
theorem C13_invalid_time_answers_500 (lib : Library) (users : List String) (s : Sim)
    (now : Int) (r : Request) (token : String)
    (ha : r.auth = ["Bearer " ++ token]) (hu : token ∈ users) (he : r.env = "sim")
    (hm : r.method = "POST")
    (hc : r.cmd ∈ ["open", "close", "open-to-end", "close-to-end", "stop"])
    (hbad : (∃ e, lib.jsonDecode r.body = .error e) ∨
      (∃ raw e, lib.jsonDecode r.body = .ok raw ∧ lib.timeParse raw = .error e)) :
    (handleCmd lib users s now r).response.code = 500 ∧
      (handleCmd lib users s now r).response.body ≠ "" ∧
      (handleCmd lib users s now r).call = none ∧
      (handleCmd lib users s now r).next = s ∧
      toHttpStatus Code.InvalidArgument = 500 ∧ toHttpStatus Code.Internal = 400 := by
  obtain ⟨msg, hr⟩ := readClientTime_bad lib r hbad
  have hd : dispatch lib s now r = reject s (Errorf Code.InvalidArgument msg) := by
    simp only [List.mem_cons, List.mem_singleton, List.not_mem_nil, or_false] at hc
    unfold dispatch
    rcases hc with h | h | h | h | h <;>
      simp [hm, h, timedCmd_error lib s r _ _ _ hr]
  rw [handleCmd_authed lib users s now r token ha hu he, hd]
  refine ⟨rfl, ?_, rfl, rfl, rfl, rfl⟩
  rw [reject, respondError_of_ne_unknown _ (by simp [Errorf])]
  exact Errorf_text_ne_empty _ _

/-- C13 at POST sim/open with the body carrying the time not-a-date, sent by
the known user "alice": the answer is 500. -/
theorem C13_invalid_time_answers_500_witness :
    (handleCmd sampleLibrary ["alice"] Sim.zero 0
        { method := "POST", env := "sim", cmd := "open", auth := ["Bearer alice"],
          body := "\x7b\"time\":\"not-a-date\"\x7d" }).response.code = 500 :=
  (C13_invalid_time_answers_500 sampleLibrary ["alice"] Sim.zero 0
    { method := "POST", env := "sim", cmd := "open", auth := ["Bearer alice"],
      body := "\x7b\"time\":\"not-a-date\"\x7d" } "alice" rfl (by decide) rfl rfl (by decide)
    (Or.inr ⟨"not-a-date", "cannot parse as \"2006\"", by simp [sampleLibrary],
      by simp [sampleLibrary]⟩)).1

/-- C14 fails for a method that is neither GET nor POST: an authenticated PUT
of sim/status is answered 405, not 404. -/
theorem C14_counterexample :
    (handleCmd sampleLibrary ["alice"] Sim.zero 0
        { method := "PUT", env := "sim", cmd := "status", auth := ["Bearer alice"],
          body := "" }).response.code = 405 ∧
      (handleCmd sampleLibrary ["alice"] Sim.zero 0
        { method := "PUT", env := "sim", cmd := "status", auth := ["Bearer alice"],
          body := "" }).response.code ≠ 404 := by
  rw [handleCmd_authed sampleLibrary ["alice"] Sim.zero 0 _ "alice" rfl (by decide) rfl]
  simp [dispatch, StatusMethodNotAllowed]

/-- C14 (amended): for an authenticated request to the environment "sim", a
GET with a command other than status, and a POST with a command other than
open, close, open-to-end, close-to-end, stop, sim-error and sim-no-error, are
answered 404 with the text of the Unimplemented error as body; a request
whose method is neither GET nor POST is answered 405 with an empty body.  In
all three cases no method of the simulator is called and its state is
kept. -/
theorem C14_unlisted_pairs (lib : Library) (users : List String) (s : Sim) (now : Int)
    (r : Request) (token : String)
    (ha : r.auth = ["Bearer " ++ token]) (hu : token ∈ users) (he : r.env = "sim") :
    (r.method = "GET" → r.cmd ≠ "status" →
        (handleCmd lib users s now r).response.code = 404 ∧
        (handleCmd lib users s now r).response.body
          = (Errorf Code.Unimplemented ("unknown command GET " ++ r.cmd)).text ∧
        (handleCmd lib users s now r).call = none ∧
        (handleCmd lib users s now r).next = s) ∧
      (r.method = "POST" →
        r.cmd ∉ ["open", "close", "open-to-end", "close-to-end", "stop", "sim-error",
          "sim-no-error"] →
        (handleCmd lib users s now r).response.code = 404 ∧
        (handleCmd lib users s now r).response.body
          = (Errorf Code.Unimplemented ("unknown command POST " ++ r.cmd)).text ∧
        (handleCmd lib users s now r).call = none ∧
        (handleCmd lib users s now r).next = s) ∧
      (r.method ≠ "GET" → r.method ≠ "POST" →
        (handleCmd lib users s now r).response.code = 405 ∧
        (handleCmd lib users s now r).response.body = "" ∧
        (handleCmd lib users s now r).call = none ∧
        (handleCmd lib users s now r).next = s) := by
  rw [handleCmd_authed lib users s now r token ha hu he]
  refine ⟨?_, ?_, ?_⟩
  · intro hm hc
    have hd : dispatch lib s now r
        = reject s (Errorf Code.Unimplemented ("unknown command GET " ++ r.cmd)) := by
      unfold dispatch
      rw [if_pos hm, if_neg hc]
    rw [hd, reject, respondError_of_ne_unknown _ (by simp [Errorf])]
    exact ⟨rfl, rfl, rfl, rfl⟩
  · intro hm hc
    simp only [List.mem_cons, List.mem_singleton, List.not_mem_nil, or_false, not_or] at hc
    obtain ⟨c1, c2, c3, c4, c5, c6, c7⟩ := hc
    have hg : ¬ r.method = "GET" := by rw [hm]; decide
    have hd : dispatch lib s now r
        = reject s (Errorf Code.Unimplemented ("unknown command POST " ++ r.cmd)) := by
      unfold dispatch
      rw [if_neg hg, if_pos hm, if_neg c1, if_neg c2, if_neg c3, if_neg c4, if_neg c5,
        if_neg c6, if_neg c7]
    rw [hd, reject, respondError_of_ne_unknown _ (by simp [Errorf])]
    exact ⟨rfl, rfl, rfl, rfl⟩
  · intro hg hp
    have hd : dispatch lib s now r
        = { response := { code := StatusMethodNotAllowed, contentLength := none, body := "" },
            call := none, next := s } := by
      unfold dispatch
      rw [if_neg hg, if_neg hp]
    rw [hd]
    exact ⟨rfl, rfl, rfl, rfl⟩

/-- C14 (amended) at GET sim/unknown-cmd, sent by the known user "alice": the
answer is 404. -/
theorem C14_unlisted_pairs_witness :
    (handleCmd sampleLibrary ["alice"] Sim.zero 0
        { method := "GET", env := "sim", cmd := "unknown-cmd", auth := ["Bearer alice"],
          body := "" }).response.code = 404 :=
  ((C14_unlisted_pairs sampleLibrary ["alice"] Sim.zero 0
    { method := "GET", env := "sim", cmd := "unknown-cmd", auth := ["Bearer alice"],
      body := "" } "alice" rfl (by decide) rfl).1 rfl (by decide)).1

/-- C15: `respondError` answers 401 for an Unauthenticated error, 403 for
PermissionDenied, 404 for Unimplemented and 400 for Internal, each time with
the text of the error as body; for an error of code Unknown it answers 500
with an empty body, whatever the text of the error. -/
theorem C15_error_mapping (err : GoError) :
    (err.code = Code.Unauthenticated →
        (respondError err).code = 401 ∧ (respondError err).body = err.text) ∧
      (err.code = Code.PermissionDenied →
        (respondError err).code = 403 ∧ (respondError err).body = err.text) ∧
      (err.code = Code.Unimplemented →
        (respondError err).code = 404 ∧ (respondError err).body = err.text) ∧
      (err.code = Code.Internal →
        (respondError err).code = 400 ∧ (respondError err).body = err.text) ∧
      (err.code = Code.Unknown →
        (respondError err).code = 500 ∧ (respondError err).body = "" ∧
        (respondError err).contentLength = some 0) ∧
      toHttpStatus Code.Unauthenticated = 401 ∧ toHttpStatus Code.PermissionDenied = 403 ∧
      toHttpStatus Code.Unimplemented = 404 ∧ toHttpStatus Code.Internal = 400 := by
  refine ⟨?_, ?_, ?_, ?_, ?_, rfl, rfl, rfl, rfl⟩ <;> intro h
  · simp [respondError, h, toHttpStatus, StatusUnauthorized]
  · simp [respondError, h, toHttpStatus, StatusForbidden]
  · simp [respondError, h, toHttpStatus, StatusNotFound]
  · simp [respondError, h, toHttpStatus, StatusBadRequest]
  · simp only [respondError, h, ↓reduceIte, StatusInternalServerError]
    exact ⟨trivial, trivial, rfl⟩

/-- C15 on an Internal error and on an error without a gRPC status: 400 with
the text, and 500 with nothing. -/
theorem C15_error_mapping_witness :
    (respondError { code := Code.Internal, text := "boom" }).code = 400 ∧
      (respondError { code := Code.Internal, text := "boom" }).body = "boom" ∧
      (respondError (plainError "json: unsupported type")).code = 500 ∧
      (respondError (plainError "json: unsupported type")).body = "" :=
  have hi := (C15_error_mapping { code := Code.Internal, text := "boom" }).2.2.2.1 rfl
  have hu := (C15_error_mapping (plainError "json: unsupported type")).2.2.2.2.1 rfl
  ⟨hi.1, hi.2, hu.1, hu.2.1⟩

/-- C16: whenever `handleCmd` answers with a status other than 200, no method
of the simulator was called and the state of the simulator is the one before
the request.  Marshalling is taken to succeed, as `json.Marshal` does on a
string and on a struct of three strings. -/
theorem C16_atomicity (lib : Library) (hmarshal : ∀ resp, ∃ b, lib.jsonMarshal resp = .ok b)
    (users : List String) (s : Sim) (now : Int) (r : Request)
    (h : (handleCmd lib users s now r).response.code ≠ 200) :
    (handleCmd lib users s now r).call = none ∧ (handleCmd lib users s now r).next = s := by
  have hok := render_ok lib hmarshal
  rcases handleCmd_cases lib users s now r with ⟨e, hr⟩ | ⟨_, _, hr⟩
  · rw [hr]; exact ⟨rfl, rfl⟩
  · rw [hr] at h ⊢
    rcases dispatch_cases lib s now r with ⟨e, hd⟩ | hd | ⟨resp, call, next, hd⟩
    · rw [hd]; exact ⟨rfl, rfl⟩
    · rw [hd]; exact ⟨rfl, rfl⟩
    · rw [hd] at h
      exact absurd (hok _ _ _) h

/-- C16 at POST sim/stop with a body that is no JSON, on a simulator that is
driving: the answer is not 200 and the state is untouched. -/
theorem C16_atomicity_witness :
    (handleCmd sampleLibrary ["alice"] (Sim.mk 40 "" DRIVING_OPEN_TO_END 5) 9
        { method := "POST", env := "sim", cmd := "stop", auth := ["Bearer alice"],
          body := "stop!" }).next = Sim.mk 40 "" DRIVING_OPEN_TO_END 5 :=
  (C16_atomicity sampleLibrary
    (fun resp => by cases resp <;> exact ⟨_, rfl⟩)
    ["alice"] (Sim.mk 40 "" DRIVING_OPEN_TO_END 5) 9
    { method := "POST", env := "sim", cmd := "stop", auth := ["Bearer alice"],
      body := "stop!" }
    (by
      rw [handleCmd_authed sampleLibrary ["alice"] _ 9 _ "alice" rfl (by decide) rfl]
      simp [dispatch, timedCmd, readClientTime, sampleLibrary, reject, respondError,
        Errorf, toHttpStatus, StatusInternalServerError])).2

/-- C18: a tick leaves the simulated error and lastDrivingCmd as they were;
the mode after it is the mode before it or NONE; if the position changed then
the mode is unchanged and not NONE and the position made one step of Go's
`pos++` or `pos--`, which is a change of exactly 1 for every position but the
two ends of the int64 range; if the tick turned a mode other than NONE into
NONE the position is unchanged; a tick in mode NONE changes nothing. -/
theorem C18_tick_frame (s : Sim) (now : Int) :
    (s.doDriving now).simError = s.simError ∧
      (s.doDriving now).lastDrivingCmd = s.lastDrivingCmd ∧
      ((s.doDriving now).drivingMode = s.drivingMode ∨
        (s.doDriving now).drivingMode = DRIVING_NONE) ∧
      ((s.doDriving now).pos ≠ s.pos →
        (s.doDriving now).drivingMode = s.drivingMode ∧ s.drivingMode ≠ DRIVING_NONE ∧
        ((s.doDriving now).pos = wrapInt (s.pos + 1) ∨
          (s.doDriving now).pos = wrapInt (s.pos - 1))) ∧
      (-9223372036854775808 < s.pos → s.pos < 9223372036854775807 →
        (s.doDriving now).pos ≠ s.pos → |(s.doDriving now).pos - s.pos| = 1) ∧
      ((s.doDriving now).drivingMode = DRIVING_NONE → s.drivingMode ≠ DRIVING_NONE →
        (s.doDriving now).pos = s.pos) ∧
      (s.drivingMode = DRIVING_NONE → s.doDriving now = s) := by
  refine ⟨?_, ?_, ?_, ?_, ?_, ?_, fun h => doDriving_none s now h⟩
  · unfold Sim.doDriving
    split_ifs <;> rfl
  · unfold Sim.doDriving
    split_ifs <;> rfl
  · unfold Sim.doDriving
    split_ifs <;> first | exact Or.inl rfl | exact Or.inr rfl
  · unfold Sim.doDriving
    split_ifs with h1 h2 h3 h4 h5 <;> intro hne <;>
      first
        | exact absurd rfl hne
        | (refine ⟨rfl, ?_, Or.inl rfl⟩
           rcases h2 with h | h <;> rw [h] <;> decide)
        | (refine ⟨rfl, ?_, Or.inr rfl⟩
           rcases h4 with h | h <;> rw [h] <;> decide)
  · intro hlo hhi
    unfold Sim.doDriving
    split_ifs <;> intro hne <;>
      first
        | exact absurd rfl hne
        | (simp only []
           rw [wrapInt_of_small _ (by omega) (by omega)]
           simp)
  · unfold Sim.doDriving
    split_ifs with h1 h2 h3 h4 h5 <;> intro hn hs <;>
      first
        | rfl
        | exact absurd hn hs

/-- C18 on a state opening under hold at position 40: a tick in time moves the
position by exactly 1 and keeps the mode. -/
theorem C18_tick_frame_witness :
    |((Sim.mk 40 "" DRIVING_OPEN_CTL 0).doDriving 5).pos - 40| = 1 ∧
      ((Sim.mk 40 "" DRIVING_OPEN_CTL 0).doDriving 5).drivingMode = DRIVING_OPEN_CTL :=
  have h := C18_tick_frame (Sim.mk 40 "" DRIVING_OPEN_CTL 0) 5
  ⟨h.2.2.2.2.1 (by decide) (by decide) (by decide), (h.2.2.2.1 (by decide)).1⟩

/-- C19 fails on the code: from the zero-value simulator, a Stop at clock
reading 5 changes lastDrivingCmd although no Open or Close was issued, and a
Close at clock reading 9 (a no-op at position 0) does not set it to 9. -/
theorem C19_counterexample :
    (Sim.zero.run [Event.stop 0 5]).lastDrivingCmd ≠ Sim.zero.lastDrivingCmd ∧
      (Sim.zero.run [Event.close 0 9]).lastDrivingCmd ≠ 9 := by
  decide

/-- C19 (amended): lastDrivingCmd is set to the clock reading by every Stop, by
Open and OpenToEnd unless the position is 100, and by Close and CloseToEnd
unless the position is 0; those guarded calls at the end stop, SimError,
Status and ticks leave it as it is.  So in every state reached from the
zero-value simulator it is the clock reading of the most recent such call
that passed its guard, and zero before any. -/
theorem C19_last_driving_cmd (s : Sim) (clientTime now : Int) :
    (s.Open clientTime now).next.lastDrivingCmd
        = (if s.pos = 100 then s.lastDrivingCmd else now) ∧
      (s.OpenToEnd clientTime now).next.lastDrivingCmd
        = (if s.pos = 100 then s.lastDrivingCmd else now) ∧
      (s.Close clientTime now).next.lastDrivingCmd
        = (if s.pos = 0 then s.lastDrivingCmd else now) ∧
      (s.CloseToEnd clientTime now).next.lastDrivingCmd
        = (if s.pos = 0 then s.lastDrivingCmd else now) ∧
      (s.Stop clientTime now).next.lastDrivingCmd = now ∧
      (∀ b : Bool, (s.SimError b).lastDrivingCmd = s.lastDrivingCmd) ∧
      s.Status.next.lastDrivingCmd = s.lastDrivingCmd ∧
      (s.doDriving now).lastDrivingCmd = s.lastDrivingCmd ∧
      Sim.zero.lastDrivingCmd = 0 := by
  refine ⟨?_, ?_, ?_, ?_, rfl, ?_, rfl, ?_, rfl⟩
  · unfold Sim.Open FULLY_OPEN
    split_ifs <;> rfl
  · unfold Sim.OpenToEnd FULLY_OPEN
    split_ifs <;> rfl
  · unfold Sim.Close
    split_ifs <;> rfl
  · unfold Sim.CloseToEnd
    split_ifs <;> rfl
  · intro b
    cases b <;> rfl
  · unfold Sim.doDriving
    split_ifs <;> rfl

/-- C20: the client time is not used: with the same state and the same clock
reading, Open, Close, OpenToEnd, CloseToEnd and Stop return the same snapshot
and error and leave the same state (lastDrivingCmd included) for any two
client times; and two requests that differ only in their bodies, both of
which carry a readable time, get the same answer from `handleCmd` and leave
the same state. -/
theorem C20_client_time_unused (s : Sim) (now t1 t2 : Int) :
    s.Open t1 now = s.Open t2 now ∧
      s.Close t1 now = s.Close t2 now ∧
      s.OpenToEnd t1 now = s.OpenToEnd t2 now ∧
      s.CloseToEnd t1 now = s.CloseToEnd t2 now ∧
      s.Stop t1 now = s.Stop t2 now ∧
      (s.Open t1 now).next.lastDrivingCmd = (if s.pos = 100 then s.lastDrivingCmd else now) ∧
      (s.Stop t1 now).next.lastDrivingCmd = now ∧
      ∀ (lib : Library) (users : List String) (r : Request) (b1 b2 : String),
        readClientTime lib { r with body := b1 } = .ok t1 →
        readClientTime lib { r with body := b2 } = .ok t2 →
        (handleCmd lib users s now { r with body := b1 }).response
            = (handleCmd lib users s now { r with body := b2 }).response ∧
          (handleCmd lib users s now { r with body := b1 }).next
            = (handleCmd lib users s now { r with body := b2 }).next := by
  refine ⟨rfl, rfl, rfl, rfl, rfl, ?_, rfl, ?_⟩
  · unfold Sim.Open FULLY_OPEN
    split_ifs <;> rfl
  · intro lib users r b1 b2 h1 h2
    exact handleCmd_congr lib users s now _ _ rfl rfl
      (dispatch_body lib s now _ _ t1 t2 rfl rfl h1 h2)

/-- C20 at POST sim/open sent twice to the same state at the same clock
reading, once with client time 1 and once with client time 2. -/
theorem C20_client_time_unused_witness :
    (Sim.mk 40 "" DRIVING_NONE 5).Open 1 9 = (Sim.mk 40 "" DRIVING_NONE 5).Open 2 9 ∧
      ((Sim.mk 40 "" DRIVING_NONE 5).Open 1 9).next.lastDrivingCmd = 9 :=
  have h := C20_client_time_unused (Sim.mk 40 "" DRIVING_NONE 5) 9 1 2
  ⟨h.1, h.2.2.2.2.2.1⟩

end hydra
